import Mathlib

/-!
Shallow embedding of the dataexplorer dynamic-database core.

The definitions below are translated from the repository's TypeScript
source: `src/lib/database.ts` (three concatenated `DatabaseService`
revisions: a Neon/Postgres one and two MySQL ones), the REST handlers
`src/app/api/sidebar/route.ts` and its revision `src/unnamed/part_003`,
and the UI components `src/components/table-view.tsx` (grid read path)
and `src/unnamed/part_000` (`buildTree`).

Modelling conventions:
* JavaScript runtime values stored in a row's `row_data` JSON payload are
  modelled by `JsValue` (null / boolean / number / string); numbers are
  modelled by `Int` (the claims only involve integral values such as `0`).
* JSON objects (`row_data`) are association lists `List (String × JsValue)`
  read through `lookupKey`; an absent key is `none` (JS `undefined`).
* The relational store is a `DB` structure holding the four relations of
  `initializeTables` plus the auto-increment counters.  `created_at` /
  `updated_at` timestamps are not modelled (no claim mentions them).
* SQL `DELETE` with the declared `ON DELETE CASCADE` foreign keys
  (`sidebar_items.parent_id -> sidebar_items.id`,
  `dynamic_tables.sidebar_item_id -> sidebar_items.id`,
  `table_columns.table_id -> dynamic_tables.id`,
  `table_data.table_id -> dynamic_tables.id`) is modelled by
  `deleteItemsWhere` / `deleteDynTablesWhere`, which compute the cascaded
  removal set (for the self-referencing key, as a fuel-bounded reachability
  closure, fuel = number of rows, enough for any forest-shaped state).
* The store itself may reject an insert (e.g. a duplicate `table_name`
  under the Postgres `UNIQUE` constraint); this is modelled by an explicit
  `storeFails : Bool` oracle argument on `createDynamicTable`.
* `new Date().toISOString().split("T")[0]` (the current date at read time)
  is modelled by a `today : String` parameter.
* Characters are compared by code point; JS `toLowerCase` is modelled on
  the ASCII range (the claims' properties only depend on the final strip
  to `[a-z0-9_]`, which is modelled exactly).
-/

/-- A JavaScript runtime value as stored in a `row_data` JSON payload. -/
inductive JsValue where
  | null : JsValue
  | bool (b : Bool) : JsValue
  | num (n : Int) : JsValue
  | str (s : String) : JsValue
deriving DecidableEq, Repr

/-- JavaScript truthiness of a `JsValue` (`undefined` is handled by
`Option` at use sites): `0`, `false`, `""` and `null` are falsy. -/
def jsTruthy : JsValue → Bool
  | .null => false
  | .bool b => b
  | .num n => decide (n ≠ 0)
  | .str s => decide (s ≠ "")

/-- Key lookup in a JSON object modelled as an association list. -/
def lookupKey (k : String) : List (String × JsValue) → Option JsValue
  | [] => none
  | kv :: rest => if kv.1 = k then some kv.2 else lookupKey k rest

/-- `sidebar_items` row (src/lib/database.ts, `interface SidebarItem`).
`item_type` is kept as a `String` as in the JSON request bodies; the code
compares it against the literals `"folder"` and `"table"`. -/
structure SidebarItem where
  id : Nat
  name : String
  parent_id : Option Nat
  item_type : String
  icon : Option String
  sort_order : Int
deriving DecidableEq, Repr

/-- `dynamic_tables` row (src/lib/database.ts, `interface DynamicTable`). -/
structure DynamicTable where
  id : Nat
  sidebar_item_id : Nat
  table_name : String
  display_name : String
  description : Option String
deriving DecidableEq, Repr

/-- `table_columns` row (src/lib/database.ts, `interface TableColumn`). -/
structure TableColumn where
  id : Nat
  table_id : Nat
  column_name : String
  display_name : String
  data_type : String
  is_required : Bool
  default_value : Option String
  sort_order : Int
  width : Int
deriving DecidableEq, Repr

/-- `table_data` row (src/lib/database.ts, `interface TableData`). -/
structure TableData where
  id : Nat
  table_id : Nat
  row_data : List (String × JsValue)
deriving DecidableEq, Repr

/-- The relational store: the four relations created by
`DatabaseService.initializeTables` plus the `AUTO_INCREMENT` counters. -/
structure DB where
  sidebar_items : List SidebarItem
  dynamic_tables : List DynamicTable
  table_columns : List TableColumn
  table_data : List TableData
  nextItemId : Nat
  nextTableId : Nat
  nextRowId : Nat
deriving DecidableEq, Repr

/-! ## Identifier normalizer

`src/app/api/sidebar/route.ts` lines 52-55:
`name.toLowerCase().replace(/\s+/g, "_").replace(/[^a-z0-9_]/g, "")`. -/

/-- The character class of the JS regexp `\s` (by code point). -/
def isJsWhitespace (c : Char) : Bool :=
  let n := c.toNat
  n = 9 || n = 10 || n = 11 || n = 12 || n = 13 || n = 32 ||
    n = 160 || n = 0x1680 || (0x2000 ≤ n && n ≤ 0x200A) ||
    n = 0x2028 || n = 0x2029 || n = 0x202F || n = 0x205F ||
    n = 0x3000 || n = 0xFEFF

/-- `String.prototype.toLowerCase`, modelled on the ASCII letters. -/
def jsToLowerChar (c : Char) : Char :=
  if 65 ≤ c.toNat ∧ c.toNat ≤ 90 then Char.ofNat (c.toNat + 32) else c

/-- Membership in the character class `[a-z0-9_]` (by code point). -/
def isAllowedChar (c : Char) : Bool :=
  let n := c.toNat
  (97 ≤ n && n ≤ 122) || (48 ≤ n && n ≤ 57) || n = 95

/-- `.replace(/\s+/g, "_")`: each maximal run of whitespace becomes one
underscore.  The flag records whether the previous character was part of a
whitespace run. -/
def collapseWsAux : Bool → List Char → List Char
  | _, [] => []
  | prevWs, c :: rest =>
    if isJsWhitespace c then
      if prevWs then collapseWsAux true rest
      else '_' :: collapseWsAux true rest
    else c :: collapseWsAux false rest

/-- The inline table/column-name normalizer of the sidebar POST handler:
lowercase, collapse whitespace runs to `_`, strip everything outside
`[a-z0-9_]`. -/
def normalizeName (s : String) : String :=
  String.mk ((collapseWsAux false (s.data.map jsToLowerChar)).filter isAllowedChar)

/-! ## Tree repository: `buildTree` (src/unnamed/part_000 lines 65-92)

`buildTree` returns the forest of items whose `parent_id` is `null`, with
each node's children being the input items (in input order) whose
`parent_id` equals the node's id.  An item whose `parent_id` does not
resolve to a present item is attached to no parent and pushed to no root
list, so it (and its whole subtree) is absent from the returned forest.
The functions below are the flattening observables of that forest; the
fuel (list length) bounds the recursion depth, which suffices for the
forest-shaped states the repository produces (distinct ids, no cycle). -/

/-- Preorder listing of the `buildTree` subtree rooted at `it`. -/
def buildTreeSubtree (items : List SidebarItem) : Nat → SidebarItem → List SidebarItem
  | 0, it => [it]
  | n + 1, it =>
    it :: ((items.filter (fun j => j.parent_id == some it.id)).map
      (buildTreeSubtree items n)).flatten

/-- Preorder listing of the whole forest returned by `buildTree`. -/
def buildTreeForest (items : List SidebarItem) : List SidebarItem :=
  ((items.filter (fun i => i.parent_id == none)).map
    (buildTreeSubtree items items.length)).flatten

/-- Number of nodes of the forest returned by `buildTree`. -/
def buildTreeNodeCount (items : List SidebarItem) : Nat :=
  (buildTreeForest items).length

/-! ## Grid read path (src/components/table-view.tsx)

`getDefaultValueForType` (lines 329-345) and the row-to-grid mapping of
`initializeTabulator` (lines 152-159):
`mappedRow[fieldName] = row.data[col.name] || getDefaultValueForType(col.data_type, col.default_value)`. -/

/-- The `switch (dataType)` arm of `getDefaultValueForType`; `today`
models `new Date().toISOString().split("T")[0]` evaluated at read time. -/
def typeBasedDefault (dataType : String) (today : String) : JsValue :=
  if dataType = "number" ∨ dataType = "decimal" ∨ dataType = "double" then .num 0
  else if dataType = "boolean" ∨ dataType = "checkbox" then .bool false
  else if dataType = "date" then .str today
  else .str ""

/-- `getDefaultValueForType(dataType, defaultValue)`: the JS guard
`if (defaultValue) return defaultValue` returns the column's
`default_value` only when it is defined and non-empty (truthy). -/
def getDefaultValueForType (dataType : String) (defaultValue : Option String)
    (today : String) : JsValue :=
  match defaultValue with
  | some s => if s = "" then typeBasedDefault dataType today else .str s
  | none => typeBasedDefault dataType today

/-- One grid cell of the mapped row: the stored value if the key is
present and truthy, otherwise the resolved default (`||` fallback). -/
def mapCellValue (stored : Option JsValue) (dataType : String)
    (defaultValue : Option String) (today : String) : JsValue :=
  match stored with
  | some v => if jsTruthy v then v else getDefaultValueForType dataType defaultValue today
  | none => getDefaultValueForType dataType defaultValue today

/-! ## Persistence: deletes with foreign-key cascade -/

/-- `DELETE FROM dynamic_tables WHERE <p>` together with the
`ON DELETE CASCADE` foreign keys of `table_columns.table_id` and
`table_data.table_id`. -/
def deleteDynTablesWhere (p : DynamicTable → Bool) (db : DB) : DB :=
  let removed := (db.dynamic_tables.filter p).map (·.id)
  { db with
    dynamic_tables := db.dynamic_tables.filter (fun t => !(p t)),
    table_columns := db.table_columns.filter (fun c => !(decide (c.table_id ∈ removed))),
    table_data := db.table_data.filter (fun r => !(decide (r.table_id ∈ removed))) }

/-- One step of the `sidebar_items.parent_id` cascade: the ids of items
whose parent id is already in `acc` and whose own id is not yet there. -/
def closureStep (items : List SidebarItem) (acc : List Nat) : List Nat :=
  (items.filter (fun i =>
    (match i.parent_id with
     | some p => decide (p ∈ acc)
     | none => false) && !(decide (i.id ∈ acc)))).map (·.id)

/-- Fuel-bounded reachability closure of the self-referencing
`sidebar_items.parent_id ON DELETE CASCADE` foreign key. -/
def itemChildClosure (items : List SidebarItem) : List Nat → Nat → List Nat
  | acc, 0 => acc
  | acc, n + 1 => itemChildClosure items (acc ++ closureStep items acc) n

/-- The ids removed by `DELETE FROM sidebar_items WHERE <p>`: the
matching rows together with everything the `parent_id` cascade reaches. -/
def cascadeIds (p : SidebarItem → Bool) (db : DB) : List Nat :=
  itemChildClosure db.sidebar_items ((db.sidebar_items.filter p).map (·.id))
    db.sidebar_items.length

/-- `DELETE FROM sidebar_items WHERE <p>` together with all declared
cascades: descendant sidebar items, the dynamic tables bound to any
removed item, and those tables' columns and rows. -/
def deleteItemsWhere (p : SidebarItem → Bool) (db : DB) : DB :=
  deleteDynTablesWhere (fun t => decide (t.sidebar_item_id ∈ cascadeIds p db))
    { db with sidebar_items :=
        db.sidebar_items.filter (fun i => !(decide (i.id ∈ cascadeIds p db))) }

/-- `DatabaseService.deleteSidebarItem` (src/lib/database.ts lines
609-664, MySQL revision): look the item up; for a folder, first delete
the dynamic tables of its direct child table items, then delete its
children (the foreign keys cascade to deeper descendants), and finally
delete the item itself.  (The source guards the `IN (...)` delete with
`tablesToDelete.length > 0`; with an empty id list that delete removes
nothing, which the unconditional filter reproduces.) -/
def deleteSidebarItemFound (item : SidebarItem) (id : Nat) (db : DB) : DB :=
  let db1 :=
    if item.item_type = "folder" then
      let tableIds := (db.sidebar_items.filter
        (fun i => i.parent_id == some id && i.item_type == "table")).map (·.id)
      let dbA := deleteDynTablesWhere
        (fun t => decide (t.sidebar_item_id ∈ tableIds)) db
      deleteItemsWhere (fun i => i.parent_id == some id) dbA
    else if item.item_type = "table" then
      deleteDynTablesWhere (fun t => t.sidebar_item_id == id) db
    else db
  deleteItemsWhere (fun i => i.id == id) db1

/-- The lookup wrapper of `deleteSidebarItem`: `Sidebar item not found`
when no row has the id, otherwise the body above. -/
def deleteSidebarItem (id : Nat) (db : DB) : Except String DB :=
  match db.sidebar_items.find? (fun i => i.id == id) with
  | none => .error "Sidebar item not found"
  | some item => .ok (deleteSidebarItemFound item id db)

/-! ## Persistence: inserts and updates -/

/-- `DatabaseService.createSidebarItem`: insert with the auto-increment
id and return the created row. -/
def createSidebarItem (db : DB) (name : String) (parent_id : Option Nat)
    (item_type : String) (icon : Option String) (sort_order : Int) :
    SidebarItem × DB :=
  let it : SidebarItem :=
    { id := db.nextItemId, name, parent_id, item_type, icon, sort_order }
  (it, { db with
    sidebar_items := db.sidebar_items ++ [it],
    nextItemId := db.nextItemId + 1 })

/-- `DatabaseService.createDynamicTable`: insert with the auto-increment
id; `storeFails` models the store rejecting the insert (e.g. a duplicate
`table_name` under the Postgres `UNIQUE` constraint), in which case the
call throws and the store is unchanged. -/
def createDynamicTable (db : DB) (sidebar_item_id : Nat)
    (table_name display_name : String) (description : Option String)
    (storeFails : Bool) : Except String (DynamicTable × DB) :=
  if storeFails then .error "Failed to create dynamic table"
  else
    let t : DynamicTable :=
      { id := db.nextTableId, sidebar_item_id, table_name, display_name, description }
    .ok (t, { db with
      dynamic_tables := db.dynamic_tables ++ [t],
      nextTableId := db.nextTableId + 1 })

/-- The sibling sort-order computation of the sidebar POST handler
(src/app/api/sidebar/route.ts lines 36-38):
`Math.max(...siblings.filter(parent_id match).map(sort_order), 0) + 1`. -/
def nextSortOrder (items : List SidebarItem) (parent_id : Option Nat) : Int :=
  ((items.filter (fun i => i.parent_id == parent_id)).map
    (fun i => i.sort_order)).foldl max 0 + 1

/-- `POST /api/sidebar` (src/app/api/sidebar/route.ts): validate, compute
the sort order, create the sidebar item, and for `item_type == "table"`
provision the dynamic table with `table_name = normalizeName name`.  A
provisioning failure propagates to the outer catch: the response is an
error but the just-created sidebar item is left in the store. -/
def postSidebarRoute (db : DB) (name : String) (parent_id : Option Nat)
    (item_type : String) (icon : Option String) (provisionFails : Bool) :
    DB × Except String SidebarItem :=
  if name = "" ∨ item_type = "" then
    (db, .error "Name and item_type are required")
  else
    let so := nextSortOrder db.sidebar_items parent_id
    let created := createSidebarItem db name parent_id item_type icon so
    let newItem := created.1
    let db1 := created.2
    if item_type = "table" then
      match createDynamicTable db1 newItem.id (normalizeName name) name
          (some ("Dynamic table: " ++ name)) provisionFails with
      | .ok tdb => (tdb.2, .ok newItem)
      | .error e => (db1, .error e)
    else (db1, .ok newItem)

/-- `POST /api/sidebar`, revision of src/unnamed/part_003: same as
`postSidebarRoute` except the table name is truncated to 64 characters
(`.substring(0, 64)`) and the provisioning step is wrapped in a
try/catch whose handler deletes the just-created sidebar item before
rethrowing (compensating delete). -/
def postSidebarPart003 (db : DB) (name : String) (parent_id : Option Nat)
    (item_type : String) (icon : Option String) (provisionFails : Bool) :
    DB × Except String SidebarItem :=
  if name = "" ∨ item_type = "" then
    (db, .error "Name and item_type are required")
  else
    let so := nextSortOrder db.sidebar_items parent_id
    let created := createSidebarItem db name parent_id item_type icon so
    let newItem := created.1
    let db1 := created.2
    if item_type = "table" then
      match createDynamicTable db1 newItem.id
          (String.mk ((normalizeName name).data.take 64)) name
          (some ("Dynamic table: " ++ name)) provisionFails with
      | .ok tdb => (tdb.2, .ok newItem)
      | .error e =>
        match deleteSidebarItem newItem.id db1 with
        | .ok db2 => (db2, .error e)
        | .error e2 => (db1, .error e2)
    else (db1, .ok newItem)

/-- `DatabaseService.updateTableRow` (src/lib/database.ts lines 303-312):
`UPDATE table_data SET row_data = <json> WHERE id = <id>` — the stored
`row_data` payload is replaced wholesale by the supplied mapping. -/
def updateTableRow (id : Nat) (rowData : List (String × JsValue)) (db : DB) : DB :=
  { db with table_data := db.table_data.map (fun r =>
      if r.id = id then { r with row_data := rowData } else r) }

/-- The optional fields of a `PUT .../columns/{id}` body (`Partial<TableColumn>`). -/
structure TableColumnUpdates where
  column_name : Option String := none
  display_name : Option String := none
  data_type : Option String := none
  is_required : Option Bool := none
  default_value : Option String := none
  sort_order : Option Int := none
  width : Option Int := none
deriving DecidableEq, Repr

/-- `DatabaseService.updateTableColumn` (src/lib/database.ts lines
262-277): `SET field = COALESCE(<supplied>, field)` for each of the seven
updatable fields — a supplied value wins, an absent one keeps the prior
value. -/
def updateTableColumn (id : Nat) (u : TableColumnUpdates) (db : DB) : DB :=
  { db with table_columns := db.table_columns.map (fun c =>
      if c.id = id then
        { c with
          column_name := u.column_name.getD c.column_name,
          display_name := u.display_name.getD c.display_name,
          data_type := u.data_type.getD c.data_type,
          is_required := u.is_required.getD c.is_required,
          default_value :=
            match u.default_value with
            | some v => some v
            | none => c.default_value,
          sort_order := u.sort_order.getD c.sort_order,
          width := u.width.getD c.width }
      else c) }

/-- `DatabaseService.createTableRow` (src/lib/database.ts lines 819-853):
`SELECT COUNT(*) FROM dynamic_tables WHERE id = <tableId>`; if the table
is absent, throw `Table with ID ... not found`; otherwise insert the row
with the supplied `row_data` mapping as-is (no check against
`table_columns`). -/
def createTableRow (tableId : Nat) (rowData : List (String × JsValue))
    (db : DB) : Except String (TableData × DB) :=
  if db.dynamic_tables.any (fun t => t.id == tableId) then
    let r : TableData := { id := db.nextRowId, table_id := tableId, row_data := rowData }
    .ok (r, { db with
      table_data := db.table_data ++ [r],
      nextRowId := db.nextRowId + 1 })
  else .error "Table with ID not found"

/-! ## Helper lemmas -/

lemma allowed_toLower_fixed {c : Char} (h : isAllowedChar c = true) :
    jsToLowerChar c = c := by
  simp only [isAllowedChar, Bool.or_eq_true, Bool.and_eq_true, decide_eq_true_eq] at h
  unfold jsToLowerChar
  rw [if_neg]
  rintro ⟨h1, h2⟩
  omega

lemma allowed_not_ws {c : Char} (h : isAllowedChar c = true) :
    isJsWhitespace c = false := by
  simp only [isAllowedChar, Bool.or_eq_true, Bool.and_eq_true, decide_eq_true_eq] at h
  apply Bool.eq_false_iff.mpr
  intro hw
  simp only [isJsWhitespace, Bool.or_eq_true, Bool.and_eq_true, decide_eq_true_eq] at hw
  omega

lemma collapseWsAux_of_no_ws {l : List Char} (h : ∀ c ∈ l, isJsWhitespace c = false) :
    ∀ b, collapseWsAux b l = l := by
  induction l with
  | nil => intro b; rfl
  | cons c rest ih =>
    intro b
    have hc := h c (List.mem_cons_self c rest)
    simp only [collapseWsAux, hc, Bool.false_eq_true, if_false]
    rw [ih (fun x hx => h x (List.mem_cons_of_mem c hx))]

lemma map_fixed_id {α : Type} {f : α → α} {l : List α} (h : ∀ x ∈ l, f x = x) :
    l.map f = l := by
  induction l with
  | nil => rfl
  | cons x rest ih =>
    simp only [List.map_cons, h x (List.mem_cons_self x rest),
      ih (fun y hy => h y (List.mem_cons_of_mem x hy))]

/-- C6: the name normalizer is total (it is a Lean function defined on all
strings, so it can never raise), its output contains only characters of
`[a-z0-9_]`, and it is idempotent. -/
theorem c6_normalize_total_idempotent (s : String) :
    ((normalizeName s).data.all isAllowedChar = true) ∧
    normalizeName (normalizeName s) = normalizeName s := by
  have hall : ∀ c ∈ (normalizeName s).data, isAllowedChar c = true := by
    intro c hc
    have : c ∈ (collapseWsAux false (s.data.map jsToLowerChar)).filter isAllowedChar := hc
    exact (List.mem_filter.mp this).2
  constructor
  · exact List.all_eq_true.mpr hall
  · show String.mk ((collapseWsAux false ((normalizeName s).data.map jsToLowerChar)).filter
      isAllowedChar) = normalizeName s
    rw [map_fixed_id (fun c hc => allowed_toLower_fixed (hall c hc))]
    rw [collapseWsAux_of_no_ws (fun c hc => allowed_not_ws (hall c hc))]
    rw [List.filter_eq_self.mpr hall]

/-- The ancestry chain of an item fully resolves within the list: either
the item is a root (`parent_id` null), or its `parent_id` is the id of a
present item whose own ancestry resolves. -/
inductive AncestryResolves (items : List SidebarItem) : SidebarItem → Prop where
  | root {j : SidebarItem} : j.parent_id = none → AncestryResolves items j
  | step {j q : SidebarItem} : q ∈ items → j.parent_id = some q.id →
      AncestryResolves items q → AncestryResolves items j

lemma resolves_of_mem_buildTreeSubtree {items : List SidebarItem}
    {j : SidebarItem} :
    ∀ {n : Nat} {it : SidebarItem}, it ∈ items → AncestryResolves items it →
      j ∈ buildTreeSubtree items n it → AncestryResolves items j := by
  intro n
  induction n with
  | zero =>
    intro it _ hres hj
    simp only [buildTreeSubtree, List.mem_singleton] at hj
    exact hj ▸ hres
  | succ n ih =>
    intro it hit hres hj
    simp only [buildTreeSubtree, List.mem_cons] at hj
    rcases hj with hj | hj
    · exact hj ▸ hres
    · rw [List.mem_flatten] at hj
      obtain ⟨l, hl, hjl⟩ := hj
      rw [List.mem_map] at hl
      obtain ⟨c, hc, hcl⟩ := hl
      rw [List.mem_filter] at hc
      have hcp : c.parent_id = some it.id := by
        have := hc.2
        simpa using this
      exact ih hc.1 (AncestryResolves.step hit hcp hres) (hcl ▸ hjl)

lemma resolves_of_mem_buildTreeForest {items : List SidebarItem}
    {x : SidebarItem} (hx : x ∈ buildTreeForest items) :
    AncestryResolves items x := by
  rw [buildTreeForest, List.mem_flatten] at hx
  obtain ⟨l, hl, hxl⟩ := hx
  rw [List.mem_map] at hl
  obtain ⟨r, hr, hrl⟩ := hl
  rw [List.mem_filter] at hr
  have hrp : r.parent_id = none := by
    have := hr.2
    simpa using this
  exact resolves_of_mem_buildTreeSubtree hr.1 (AncestryResolves.root hrp)
    (hrl ▸ hxl)

/-- C4 counterexample: a single item whose `parent_id` (99) resolves to no
item in the list yields an empty forest with node count 0, not a forest
containing the orphan as a root with node count 1. -/
theorem c4_orphan_cex :
    buildTreeNodeCount [⟨1, "orphan", some 99, "folder", none, 0⟩] = 0 ∧
    (0 : Nat) ≠ 1 := by
  constructor
  · rfl
  · decide

/-- C4 (amended): an item whose `parent_id` does not resolve to an item
present in the list is dropped from the forest returned by `buildTree`
(it is not treated as a root and appears nowhere in the forest), and the
forest contains only items whose ancestry chain fully resolves to a
null-parent item — so such an item's descendants, whose chains end at the
unresolvable item, are dropped with it, and the node count can be less
than the number of input items (the counterexample exhibits this). -/
theorem c4_orphans_dropped (items : List SidebarItem) (j : SidebarItem) (p : Nat)
    (hp : j.parent_id = some p) (hnores : ∀ i ∈ items, i.id ≠ p) :
    j ∉ buildTreeForest items ∧
    ∀ x ∈ buildTreeForest items, AncestryResolves items x := by
  refine ⟨?_, fun x hx => resolves_of_mem_buildTreeForest hx⟩
  intro hj
  cases resolves_of_mem_buildTreeForest hj with
  | root h =>
    rw [hp] at h
    exact Option.noConfusion h
  | step hq hpar _ =>
    rw [hp] at hpar
    exact hnores _ hq (Option.some.inj hpar).symm

/-- C4 witness: a concrete orphan (parent 99 absent) with a child of its
own (item 3): the orphan is not in the forest, and every forest member
has a resolving ancestry chain — which the orphan's child (its chain ends
at the orphan) does not, so the orphan's subtree is gone too. -/
theorem c4_orphans_dropped_witness :
    (⟨2, "o", some 99, "table", none, 0⟩ : SidebarItem) ∉
      buildTreeForest [⟨1, "r", none, "folder", none, 0⟩,
        ⟨2, "o", some 99, "table", none, 0⟩,
        ⟨3, "u", some 2, "table", none, 0⟩] ∧
    ∀ x ∈ buildTreeForest [⟨1, "r", none, "folder", none, 0⟩,
        ⟨2, "o", some 99, "table", none, 0⟩,
        ⟨3, "u", some 2, "table", none, 0⟩],
      AncestryResolves [⟨1, "r", none, "folder", none, 0⟩,
        ⟨2, "o", some 99, "table", none, 0⟩,
        ⟨3, "u", some 2, "table", none, 0⟩] x :=
  c4_orphans_dropped _ _ 99 rfl (by decide)

/-- C3 counterexample: a column of type `number` with the explicit
`default_value` `""` resolves to the type-based default `0`, not to its
`default_value` — so the explicit default does not win for every
`default_value` string. -/
theorem c3_empty_default_cex :
    getDefaultValueForType "number" (some "") "2024-05-01" = JsValue.num 0 ∧
    JsValue.num 0 ≠ JsValue.str "" := by
  constructor
  · rfl
  · decide

/-- C3 (amended): for a key absent from `row_data`, the read resolves the
type-based default (`number`/`decimal`/`double` give `0`,
`boolean`/`checkbox` give `false`, `date` gives the current date string,
everything else gives `""`), and an explicit *non-empty* `default_value`
wins over the type-based default for every type; an empty `default_value`
behaves as if absent. -/
theorem c3_default_resolution (dt s today : String) (hs : s ≠ "") :
    getDefaultValueForType "number" none today = JsValue.num 0 ∧
    getDefaultValueForType "decimal" none today = JsValue.num 0 ∧
    getDefaultValueForType "double" none today = JsValue.num 0 ∧
    getDefaultValueForType "boolean" none today = JsValue.bool false ∧
    getDefaultValueForType "checkbox" none today = JsValue.bool false ∧
    getDefaultValueForType "date" none today = JsValue.str today ∧
    (dt ≠ "number" → dt ≠ "decimal" → dt ≠ "double" → dt ≠ "boolean" →
      dt ≠ "checkbox" → dt ≠ "date" →
      getDefaultValueForType dt none today = JsValue.str "") ∧
    getDefaultValueForType dt (some s) today = JsValue.str s ∧
    mapCellValue none dt (some s) today = JsValue.str s ∧
    mapCellValue none dt none today = getDefaultValueForType dt none today := by
  refine ⟨rfl, rfl, rfl, rfl, rfl, rfl, ?_, ?_, ?_, rfl⟩
  · intro h1 h2 h3 h4 h5 h6
    simp [getDefaultValueForType, typeBasedDefault, h1, h2, h3, h4, h5, h6]
  · simp [getDefaultValueForType, hs]
  · simp [mapCellValue, getDefaultValueForType, hs]

/-- C3 witness: instantiated at the spec's own example — a `number`
column with `default_value = "5"` resolves to the string `"5"`, and an
absent `number` key resolves to `0`. -/
theorem c3_default_resolution_witness :
    getDefaultValueForType "number" none "2024-05-01" = JsValue.num 0 ∧
    getDefaultValueForType "number" (some "5") "2024-05-01" = JsValue.str "5" := by
  have h := c3_default_resolution "number" "5" "2024-05-01" (by decide)
  exact ⟨h.1, h.2.2.2.2.2.2.2.2.1⟩

/-- C10: a stored value that is falsy (`0`, `false`, `""`, `null`) is
replaced by the resolved default exactly as if the key were absent
(because the grid mapping uses `stored || default`), and an explicit
`default_value` that is the empty string never wins over the type-based
default. -/
theorem c10_falsy_indistinguishable (dt : String) (dv : Option String)
    (today : String) (v : JsValue) (hv : jsTruthy v = false) :
    mapCellValue (some v) dt dv today = mapCellValue none dt dv today ∧
    getDefaultValueForType dt (some "") today = getDefaultValueForType dt none today := by
  constructor
  · simp [mapCellValue, hv]
  · simp [getDefaultValueForType]

/-- C10 witness: the stored number `0` is displayed as the column's
default `"7"`, exactly as an absent key would be. -/
theorem c10_falsy_indistinguishable_witness :
    mapCellValue (some (JsValue.num 0)) "number" (some "7") "2024-05-01" =
      mapCellValue none "number" (some "7") "2024-05-01" ∧
    getDefaultValueForType "number" (some "") "2024-05-01" =
      getDefaultValueForType "number" none "2024-05-01" :=
  c10_falsy_indistinguishable "number" (some "7") "2024-05-01" (JsValue.num 0) (by decide)

/-- C2: `updateTableRow(id, m)` replaces the stored `row_data` of the row
with id `id` entirely by `m`; a key present in the old payload but absent
from `m` is absent afterwards, and the row still exists. -/
theorem c2_updateTableRow_full_replace (db : DB) (id : Nat)
    (m : List (String × JsValue)) (r : TableData) (hr : r ∈ db.table_data)
    (hid : r.id = id) (k : String)
    (_hold : (lookupKey k r.row_data).isSome = true)
    (habs : lookupKey k m = none) :
    (∀ r' ∈ (updateTableRow id m db).table_data,
      r'.id = id → r'.row_data = m ∧ lookupKey k r'.row_data = none) ∧
    ∃ r' ∈ (updateTableRow id m db).table_data, r'.id = id := by
  constructor
  · intro r' hr' hid'
    simp only [updateTableRow, List.mem_map] at hr'
    obtain ⟨a, _, hfa⟩ := hr'
    by_cases ha : a.id = id
    · rw [if_pos ha] at hfa
      rw [← hfa]
      exact ⟨rfl, habs⟩
    · rw [if_neg ha] at hfa
      rw [← hfa] at hid'
      exact absurd hid' ha
  · refine ⟨{ r with row_data := m }, ?_, hid⟩
    have : (fun x => if x.id = id then { x with row_data := m } else x) r
        = { r with row_data := m } := by
      simp only [if_pos hid]
    exact this ▸ List.mem_map_of_mem _ hr

/-- C2 witness: the spec's own example — updating the stored row
`{a:1, b:2}` with `{a:9}` yields stored `{a:9}` and drops `b`. -/
theorem c2_updateTableRow_full_replace_witness :
    (∀ r' ∈ (updateTableRow 7 [("a", JsValue.num 9)]
        ⟨[], [], [], [⟨7, 10, [("a", JsValue.num 1), ("b", JsValue.num 2)]⟩], 1, 1, 8⟩).table_data,
      r'.id = 7 → r'.row_data = [("a", JsValue.num 9)] ∧
        lookupKey "b" r'.row_data = none) ∧
    ∃ r' ∈ (updateTableRow 7 [("a", JsValue.num 9)]
        ⟨[], [], [], [⟨7, 10, [("a", JsValue.num 1), ("b", JsValue.num 2)]⟩], 1, 1, 8⟩).table_data,
      r'.id = 7 :=
  c2_updateTableRow_full_replace _ 7 _
    ⟨7, 10, [("a", JsValue.num 1), ("b", JsValue.num 2)]⟩
    (by decide) rfl "b" (by decide) (by decide)

/-- C8: `updateTableColumn(id, updates)` changes only the supplied
fields of the column with id `id`: every supplied field takes the
supplied value, every absent field keeps its prior value, and the
immutable `id` and `table_id` are untouched. -/
theorem c8_updateTableColumn_partial (db : DB) (id : Nat)
    (u : TableColumnUpdates) (c : TableColumn) (hc : c ∈ db.table_columns)
    (hid : c.id = id) :
    ∃ c' ∈ (updateTableColumn id u db).table_columns,
      c'.id = c.id ∧ c'.table_id = c.table_id ∧
      (u.column_name = none → c'.column_name = c.column_name) ∧
      (∀ v, u.column_name = some v → c'.column_name = v) ∧
      (u.display_name = none → c'.display_name = c.display_name) ∧
      (∀ v, u.display_name = some v → c'.display_name = v) ∧
      (u.data_type = none → c'.data_type = c.data_type) ∧
      (∀ v, u.data_type = some v → c'.data_type = v) ∧
      (u.is_required = none → c'.is_required = c.is_required) ∧
      (∀ v, u.is_required = some v → c'.is_required = v) ∧
      (u.default_value = none → c'.default_value = c.default_value) ∧
      (∀ v, u.default_value = some v → c'.default_value = some v) ∧
      (u.sort_order = none → c'.sort_order = c.sort_order) ∧
      (∀ v, u.sort_order = some v → c'.sort_order = v) ∧
      (u.width = none → c'.width = c.width) ∧
      (∀ v, u.width = some v → c'.width = v) := by
  refine ⟨{ c with
      column_name := u.column_name.getD c.column_name,
      display_name := u.display_name.getD c.display_name,
      data_type := u.data_type.getD c.data_type,
      is_required := u.is_required.getD c.is_required,
      default_value := match u.default_value with
        | some v => some v
        | none => c.default_value,
      sort_order := u.sort_order.getD c.sort_order,
      width := u.width.getD c.width }, ?_, rfl, rfl, ?_, ?_, ?_, ?_, ?_, ?_,
    ?_, ?_, ?_, ?_, ?_, ?_, ?_, ?_⟩
  · have : (fun x => if x.id = id then
        { x with
          column_name := u.column_name.getD x.column_name,
          display_name := u.display_name.getD x.display_name,
          data_type := u.data_type.getD x.data_type,
          is_required := u.is_required.getD x.is_required,
          default_value := match u.default_value with
            | some v => some v
            | none => x.default_value,
          sort_order := u.sort_order.getD x.sort_order,
          width := u.width.getD x.width }
      else x) c = { c with
        column_name := u.column_name.getD c.column_name,
        display_name := u.display_name.getD c.display_name,
        data_type := u.data_type.getD c.data_type,
        is_required := u.is_required.getD c.is_required,
        default_value := match u.default_value with
          | some v => some v
          | none => c.default_value,
        sort_order := u.sort_order.getD c.sort_order,
        width := u.width.getD c.width } := by
      simp only [if_pos hid]
    exact this ▸ List.mem_map_of_mem _ hc
  all_goals
    first
    | (intro h; simp [h])
    | (intro v h; simp [h])

/-- The column, update and store used by the C8 witness. -/
def colC8 : TableColumn := ⟨100, 10, "c", "Old", "text", false, none, 0, 150⟩

/-- The partial update of the C8 witness: only `display_name` supplied. -/
def updC8 : TableColumnUpdates := { display_name := some "New" }

/-- The store of the C8 witness. -/
def dbC8 : DB := ⟨[], [], [colC8], [], 1, 1, 1⟩

/-- C8 witness: updating only `display_name` of a concrete column. -/
theorem c8_updateTableColumn_partial_witness :
    ∃ c' ∈ (updateTableColumn 100 updC8 dbC8).table_columns,
      c'.id = colC8.id ∧ c'.table_id = colC8.table_id ∧
      (updC8.column_name = none → c'.column_name = colC8.column_name) ∧
      (∀ v, updC8.column_name = some v → c'.column_name = v) ∧
      (updC8.display_name = none → c'.display_name = colC8.display_name) ∧
      (∀ v, updC8.display_name = some v → c'.display_name = v) ∧
      (updC8.data_type = none → c'.data_type = colC8.data_type) ∧
      (∀ v, updC8.data_type = some v → c'.data_type = v) ∧
      (updC8.is_required = none → c'.is_required = colC8.is_required) ∧
      (∀ v, updC8.is_required = some v → c'.is_required = v) ∧
      (updC8.default_value = none → c'.default_value = colC8.default_value) ∧
      (∀ v, updC8.default_value = some v → c'.default_value = some v) ∧
      (updC8.sort_order = none → c'.sort_order = colC8.sort_order) ∧
      (∀ v, updC8.sort_order = some v → c'.sort_order = v) ∧
      (updC8.width = none → c'.width = colC8.width) ∧
      (∀ v, updC8.width = some v → c'.width = v) :=
  c8_updateTableColumn_partial dbC8 100 updC8 colC8 (by decide) rfl

/-- C9: `createTableRow(table_id, row_data)` fails with the not-found
error when no dynamic table has id `table_id`; when one does, it
succeeds for every `row_data` mapping — arbitrary keys are accepted, the
payload is stored verbatim, and the column definitions are not consulted
(`table_columns` is unchanged and unread). -/
theorem c9_createTableRow_not_found_or_accepts (db : DB) (tableId : Nat)
    (rowData : List (String × JsValue)) :
    ((∀ t ∈ db.dynamic_tables, t.id ≠ tableId) →
      createTableRow tableId rowData db = .error "Table with ID not found") ∧
    ((∃ t ∈ db.dynamic_tables, t.id = tableId) →
      ∃ r db', createTableRow tableId rowData db = .ok (r, db') ∧
        r.row_data = rowData ∧ r.table_id = tableId ∧ r ∈ db'.table_data ∧
        db'.table_columns = db.table_columns) := by
  constructor
  · intro hno
    rw [createTableRow, if_neg]
    intro hany
    rw [List.any_eq_true] at hany
    obtain ⟨t, ht, hts⟩ := hany
    exact hno t ht (by simpa using hts)
  · rintro ⟨t, ht, hts⟩
    have hany : db.dynamic_tables.any (fun t => t.id == tableId) = true := by
      rw [List.any_eq_true]
      exact ⟨t, ht, by simpa using hts⟩
    refine ⟨⟨db.nextRowId, tableId, rowData⟩,
      ⟨db.sidebar_items, db.dynamic_tables, db.table_columns,
        db.table_data ++ [⟨db.nextRowId, tableId, rowData⟩],
        db.nextItemId, db.nextTableId, db.nextRowId + 1⟩, ?_, rfl, rfl, ?_, rfl⟩
    · simp only [createTableRow, if_pos hany]
    · exact List.mem_append_right _ (List.mem_singleton.mpr rfl)

/-- C9 witness: on a store holding only the table with id 1, a create
against the missing id 2 fails with not-found, and a create against id 1
with a key (`"ghost"`) matching no column definition succeeds verbatim. -/
theorem c9_createTableRow_witness :
    createTableRow 2 [("ghost", JsValue.str "x")]
      ⟨[], [⟨1, 5, "t", "T", none⟩], [], [], 1, 2, 1⟩ =
      .error "Table with ID not found" ∧
    ∃ r db', createTableRow 1 [("ghost", JsValue.str "x")]
        ⟨[], [⟨1, 5, "t", "T", none⟩], [], [], 1, 2, 1⟩ = .ok (r, db') ∧
      r.row_data = [("ghost", JsValue.str "x")] ∧ r.table_id = 1 ∧
      r ∈ db'.table_data ∧ db'.table_columns = [] := by
  constructor
  · exact (c9_createTableRow_not_found_or_accepts
      ⟨[], [⟨1, 5, "t", "T", none⟩], [], [], 1, 2, 1⟩ 2
      [("ghost", JsValue.str "x")]).1 (by decide)
  · exact (c9_createTableRow_not_found_or_accepts
      ⟨[], [⟨1, 5, "t", "T", none⟩], [], [], 1, 2, 1⟩ 1
      [("ghost", JsValue.str "x")]).2 ⟨⟨1, 5, "t", "T", none⟩, by decide, rfl⟩

lemma foldl_max_of_ub (l : List Int) (b : Int) (h : ∀ y ∈ l, y ≤ b) :
    l.foldl max b = b := by
  induction l generalizing b with
  | nil => rfl
  | cons x xs ih =>
    have hx : x ≤ b := h x (List.mem_cons_self x xs)
    simp only [List.foldl_cons, max_eq_left hx]
    exact ih b (fun y hy => h y (List.mem_cons_of_mem x hy))

lemma foldl_max_of_mem (l : List Int) (m : Int) (hmem : m ∈ l)
    (hub : ∀ y ∈ l, y ≤ m) : ∀ a : Int, l.foldl max a = max m a := by
  induction l with
  | nil => exact absurd hmem (List.not_mem_nil m)
  | cons x xs ih =>
    intro a
    simp only [List.foldl_cons]
    rcases List.mem_cons.mp hmem with hmx | hmxs
    · subst hmx
      rw [foldl_max_of_ub xs (max a m)
        (fun y hy => le_trans (hub y (List.mem_cons_of_mem m hy)) (le_max_right a m))]
      exact max_comm a m
    · rw [ih hmxs (fun y hy => hub y (List.mem_cons_of_mem x hy)) (max a x)]
      have hx : x ≤ m := hub x (List.mem_cons_self x xs)
      rw [max_comm a x, ← max_assoc, max_eq_left hx]

/-- C7 counterexample: with a single root sibling whose `sort_order` is
`-5`, the handler assigns `Math.max(-5, 0) + 1 = 1`, not
`max(sibling sort_order) + 1 = -4`. -/
theorem c7_negative_sibling_cex :
    nextSortOrder [⟨1, "a", none, "folder", none, -5⟩] none = 1 ∧
    (1 : Int) ≠ -5 + 1 := by
  constructor
  · rfl
  · decide

/-- C7 (amended): the assigned `sort_order` is
`max(0 together with the siblings' sort_orders) + 1`, where the siblings
are the items whose `parent_id` equals the request's (null forming one
shared root scope); when the maximal sibling `sort_order` `m` is `≥ 0`
this equals `m + 1` (the claim's formula), and with no siblings it is 1. -/
theorem c7_next_sort_order (items : List SidebarItem) (pid : Option Nat) (m : Int)
    (hmem : m ∈ (items.filter (fun i => i.parent_id == pid)).map (fun i => i.sort_order))
    (hub : ∀ y ∈ (items.filter (fun i => i.parent_id == pid)).map
      (fun i => i.sort_order), y ≤ m) :
    nextSortOrder items pid = max m 0 + 1 := by
  unfold nextSortOrder
  rw [foldl_max_of_mem _ m hmem hub 0]

/-- C7 witness: root siblings with sort orders 3 and 5 give the new item
sort order `max 5 0 + 1 = 6`. -/
theorem c7_next_sort_order_witness :
    nextSortOrder [⟨1, "a", none, "folder", none, 3⟩,
      ⟨2, "b", none, "folder", none, 5⟩] none = max 5 0 + 1 :=
  c7_next_sort_order _ none 5 (by decide) (by decide)

lemma DB_ext {a b : DB} (h1 : a.sidebar_items = b.sidebar_items)
    (h2 : a.dynamic_tables = b.dynamic_tables)
    (h3 : a.table_columns = b.table_columns)
    (h4 : a.table_data = b.table_data) (h5 : a.nextItemId = b.nextItemId)
    (h6 : a.nextTableId = b.nextTableId) (h7 : a.nextRowId = b.nextRowId) :
    a = b := by
  cases a; cases b
  simp_all

lemma find?_append_false {α : Type} (p : α → Bool) {l1 : List α} (l2 : List α)
    (h : ∀ x ∈ l1, p x = false) : (l1 ++ l2).find? p = l2.find? p := by
  induction l1 with
  | nil => rfl
  | cons x xs ih =>
    simp only [List.cons_append, List.find?_cons, h x (List.mem_cons_self x xs)]
    exact ih (fun y hy => h y (List.mem_cons_of_mem x hy))

lemma closure_stable {items : List SidebarItem} {acc : List Nat}
    (h : closureStep items acc = []) :
    ∀ n, itemChildClosure items acc n = acc := by
  intro n
  induction n with
  | zero => rfl
  | succ n ih =>
    show itemChildClosure items (acc ++ closureStep items acc) n = acc
    rw [h, List.append_nil]
    exact ih

/-- Deleting a freshly appended `"table"`-type item whose id is referenced
by no pre-existing item, parent pointer, or dynamic table removes exactly
that item and leaves every relation as before the append. -/
lemma deleteSidebarItem_fresh_table (items : List SidebarItem)
    (tabs : List DynamicTable) (cols : List TableColumn)
    (rows : List TableData) (n1 n2 n3 : Nat) (newItem : SidebarItem)
    (hty : newItem.item_type = "table")
    (hfresh : ∀ i ∈ items, i.id ≠ newItem.id)
    (hfreshP : ∀ i ∈ items, i.parent_id ≠ some newItem.id)
    (hfreshT : ∀ t ∈ tabs, t.sidebar_item_id ≠ newItem.id) :
    deleteSidebarItem newItem.id ⟨items ++ [newItem], tabs, cols, rows, n1, n2, n3⟩ =
      .ok ⟨items, tabs, cols, rows, n1, n2, n3⟩ := by
  have hfind : (items ++ [newItem]).find? (fun i => i.id == newItem.id) = some newItem := by
    rw [find?_append_false _ _ (fun x hx => by
      simpa using hfresh x hx)]
    simp [List.find?_cons]
  rw [deleteSidebarItem]
  show (match (items ++ [newItem]).find? (fun i => i.id == newItem.id) with
    | none => Except.error "Sidebar item not found"
    | some item => Except.ok (deleteSidebarItemFound item newItem.id
        ⟨items ++ [newItem], tabs, cols, rows, n1, n2, n3⟩)) = _
  rw [hfind]
  show Except.ok (deleteSidebarItemFound newItem newItem.id
    ⟨items ++ [newItem], tabs, cols, rows, n1, n2, n3⟩) = _
  rw [deleteSidebarItemFound, hty]
  rw [if_neg (by decide : ¬("table" = "folder")), if_pos rfl]
  have hseed : ((items ++ [newItem]).filter (fun i => i.id == newItem.id)) = [newItem] := by
    rw [List.filter_append]
    rw [List.filter_eq_nil_iff.mpr (fun x hx => by simpa using hfresh x hx)]
    simp [List.filter]
  have hstep : closureStep (items ++ [newItem]) [newItem.id] = [] := by
    rw [closureStep, List.filter_eq_nil_iff.mpr, List.map_nil]
    intro i hi
    rcases List.mem_append.mp hi with hmem | hmem
    · cases hpi : i.parent_id with
      | none => simp [hpi]
      | some p =>
        have : p ≠ newItem.id := by
          intro hEq
          exact hfreshP i hmem (hEq ▸ hpi)
        simp [hpi, this]
    · rw [List.mem_singleton.mp hmem]
      simp
  have hclos : itemChildClosure (items ++ [newItem])
      (((items ++ [newItem]).filter (fun i => i.id == newItem.id)).map (·.id))
      (items ++ [newItem]).length = [newItem.id] := by
    rw [hseed]
    show itemChildClosure (items ++ [newItem]) [newItem.id] _ = [newItem.id]
    exact closure_stable hstep _
  have hkeepItems : (items ++ [newItem]).filter
      (fun i => !(decide (i.id ∈ ([newItem.id] : List Nat)))) = items := by
    rw [List.filter_append]
    rw [List.filter_eq_self.mpr (fun x hx => by simpa using hfresh x hx)]
    simp [List.filter]
  have hkeepTabsA : tabs.filter (fun t => !(t.sidebar_item_id == newItem.id)) = tabs :=
    List.filter_eq_self.mpr (fun t ht => by simpa using hfreshT t ht)
  have hremTabsA : tabs.filter (fun t => t.sidebar_item_id == newItem.id) = [] :=
    List.filter_eq_nil_iff.mpr (fun t ht => by simpa using hfreshT t ht)
  have hkeepTabsB : tabs.filter
      (fun t => !(decide (t.sidebar_item_id ∈ ([newItem.id] : List Nat)))) = tabs :=
    List.filter_eq_self.mpr (fun t ht => by simpa using hfreshT t ht)
  have hremTabsB : tabs.filter
      (fun t => decide (t.sidebar_item_id ∈ ([newItem.id] : List Nat))) = [] :=
    List.filter_eq_nil_iff.mpr (fun t ht => by simpa using hfreshT t ht)
  apply congrArg Except.ok
  apply DB_ext
  · show ((deleteDynTablesWhere (fun t => t.sidebar_item_id == newItem.id)
      ⟨items ++ [newItem], tabs, cols, rows, n1, n2, n3⟩).sidebar_items.filter _) = items
    show ((items ++ [newItem]).filter
      (fun i => !(decide (i.id ∈ itemChildClosure (items ++ [newItem])
        (((items ++ [newItem]).filter (fun i => i.id == newItem.id)).map (·.id))
        (items ++ [newItem]).length)))) = items
    rw [hclos]
    exact hkeepItems
  · show ((deleteDynTablesWhere (fun t => t.sidebar_item_id == newItem.id)
        ⟨items ++ [newItem], tabs, cols, rows, n1, n2, n3⟩).dynamic_tables.filter
      (fun t => !(decide (t.sidebar_item_id ∈ itemChildClosure (items ++ [newItem])
        (((items ++ [newItem]).filter (fun i => i.id == newItem.id)).map (·.id))
        (items ++ [newItem]).length)))) = tabs
    rw [hclos]
    show (tabs.filter (fun t => !(t.sidebar_item_id == newItem.id))).filter
      (fun t => !(decide (t.sidebar_item_id ∈ ([newItem.id] : List Nat)))) = tabs
    rw [hkeepTabsA, hkeepTabsB]
  · show ((deleteDynTablesWhere (fun t => t.sidebar_item_id == newItem.id)
        ⟨items ++ [newItem], tabs, cols, rows, n1, n2, n3⟩).table_columns.filter _) = cols
    show ((cols.filter (fun c => !(decide (c.table_id ∈
        (tabs.filter (fun t => t.sidebar_item_id == newItem.id)).map (·.id))))).filter
      (fun c => !(decide (c.table_id ∈
        ((tabs.filter (fun t => !(t.sidebar_item_id == newItem.id))).filter
          (fun t => decide (t.sidebar_item_id ∈ itemChildClosure (items ++ [newItem])
            (((items ++ [newItem]).filter (fun i => i.id == newItem.id)).map (·.id))
            (items ++ [newItem]).length))).map (·.id))))) = cols
    rw [hclos, hremTabsA, hkeepTabsA, hremTabsB]
    simp
  · show ((deleteDynTablesWhere (fun t => t.sidebar_item_id == newItem.id)
        ⟨items ++ [newItem], tabs, cols, rows, n1, n2, n3⟩).table_data.filter _) = rows
    show ((rows.filter (fun r => !(decide (r.table_id ∈
        (tabs.filter (fun t => t.sidebar_item_id == newItem.id)).map (·.id))))).filter
      (fun r => !(decide (r.table_id ∈
        ((tabs.filter (fun t => !(t.sidebar_item_id == newItem.id))).filter
          (fun t => decide (t.sidebar_item_id ∈ itemChildClosure (items ++ [newItem])
            (((items ++ [newItem]).filter (fun i => i.id == newItem.id)).map (·.id))
            (items ++ [newItem]).length))).map (·.id))))) = rows
    rw [hclos, hremTabsA, hkeepTabsA, hremTabsB]
    simp
  · rfl
  · rfl
  · rfl

/-- The empty store (fresh counters), used by concrete instantiations. -/
def db0 : DB := ⟨[], [], [], [], 1, 1, 1⟩

/-- C1 counterexample: in the handler of src/app/api/sidebar/route.ts, a
failed DynamicTable provisioning for a new `"table"` item surfaces the
error but leaves the just-created SidebarItem in the store with no
DynamicTable bound to it — the compensating delete does not happen. -/
theorem c1_route_orphan_cex :
    (postSidebarRoute db0 "Customers" none "table" (some "table") true).2 =
      .error "Failed to create dynamic table" ∧
    (postSidebarRoute db0 "Customers" none "table" (some "table") true).1.sidebar_items =
      [⟨1, "Customers", none, "table", some "table", 1⟩] ∧
    (postSidebarRoute db0 "Customers" none "table" (some "table") true).1.dynamic_tables =
      [] := by
  refine ⟨?_, ?_, ?_⟩ <;> rfl

/-- C1 (amended): the revision of the handler in src/unnamed/part_003
performs the compensating delete: when DynamicTable provisioning fails
after the SidebarItem was created, the handler deletes the just-created
SidebarItem before surfacing the error, so all four relations are exactly
as before the request (the freshness hypotheses say the auto-increment id
is not already used, which every reachable store satisfies).  The handler
of src/app/api/sidebar/route.ts does not do this (see the
counterexample): there the orphaned SidebarItem survives. -/
theorem c1_part003_rollback (db : DB) (name : String) (parent : Option Nat)
    (icon : Option String) (hname : name ≠ "")
    (hfresh : ∀ i ∈ db.sidebar_items, i.id ≠ db.nextItemId)
    (hfreshP : ∀ i ∈ db.sidebar_items, i.parent_id ≠ some db.nextItemId)
    (hfreshT : ∀ t ∈ db.dynamic_tables, t.sidebar_item_id ≠ db.nextItemId) :
    (postSidebarPart003 db name parent "table" icon true).2 =
      .error "Failed to create dynamic table" ∧
    (postSidebarPart003 db name parent "table" icon true).1.sidebar_items =
      db.sidebar_items ∧
    (postSidebarPart003 db name parent "table" icon true).1.dynamic_tables =
      db.dynamic_tables ∧
    (postSidebarPart003 db name parent "table" icon true).1.table_columns =
      db.table_columns ∧
    (postSidebarPart003 db name parent "table" icon true).1.table_data =
      db.table_data := by
  have hcond : ¬(name = "" ∨ ("table" : String) = "") := by
    rintro (h | h)
    · exact hname h
    · exact absurd h (by decide)
  have hdel : deleteSidebarItem db.nextItemId
      ⟨db.sidebar_items ++
          [⟨db.nextItemId, name, parent, "table", icon,
            nextSortOrder db.sidebar_items parent⟩],
        db.dynamic_tables, db.table_columns, db.table_data,
        db.nextItemId + 1, db.nextTableId, db.nextRowId⟩ =
      .ok ⟨db.sidebar_items, db.dynamic_tables, db.table_columns,
        db.table_data, db.nextItemId + 1, db.nextTableId, db.nextRowId⟩ :=
    deleteSidebarItem_fresh_table db.sidebar_items db.dynamic_tables
      db.table_columns db.table_data (db.nextItemId + 1) db.nextTableId
      db.nextRowId
      ⟨db.nextItemId, name, parent, "table", icon,
        nextSortOrder db.sidebar_items parent⟩
      rfl hfresh hfreshP hfreshT
  have hmain : postSidebarPart003 db name parent "table" icon true =
      (⟨db.sidebar_items, db.dynamic_tables, db.table_columns, db.table_data,
        db.nextItemId + 1, db.nextTableId, db.nextRowId⟩,
       .error "Failed to create dynamic table") := by
    simp only [postSidebarPart003, hcond, if_false, createSidebarItem,
      createDynamicTable, if_true, hdel]
  rw [hmain]
  exact ⟨rfl, rfl, rfl, rfl, rfl⟩

/-- C1 witness for the amended theorem: a concrete store with one root
folder, a create of a table item under it whose provisioning fails. -/
theorem c1_part003_rollback_witness :
    (postSidebarPart003 ⟨[⟨1, "Tables", none, "folder", some "folder", 0⟩],
        [], [], [], 2, 1, 1⟩ "Customers" (some 1) "table" (some "table") true).2 =
      .error "Failed to create dynamic table" ∧
    (postSidebarPart003 ⟨[⟨1, "Tables", none, "folder", some "folder", 0⟩],
        [], [], [], 2, 1, 1⟩ "Customers" (some 1) "table" (some "table") true).1.sidebar_items =
      [⟨1, "Tables", none, "folder", some "folder", 0⟩] ∧
    (postSidebarPart003 ⟨[⟨1, "Tables", none, "folder", some "folder", 0⟩],
        [], [], [], 2, 1, 1⟩ "Customers" (some 1) "table" (some "table") true).1.dynamic_tables =
      [] ∧
    (postSidebarPart003 ⟨[⟨1, "Tables", none, "folder", some "folder", 0⟩],
        [], [], [], 2, 1, 1⟩ "Customers" (some 1) "table" (some "table") true).1.table_columns =
      [] ∧
    (postSidebarPart003 ⟨[⟨1, "Tables", none, "folder", some "folder", 0⟩],
        [], [], [], 2, 1, 1⟩ "Customers" (some 1) "table" (some "table") true).1.table_data =
      [] :=
  c1_part003_rollback ⟨[⟨1, "Tables", none, "folder", some "folder", 0⟩],
      [], [], [], 2, 1, 1⟩ "Customers" (some 1) (some "table")
    (by decide) (by decide) (by decide) (by decide)

/-- One parent step: some item of the list has id `c` and parent `p`. -/
def IsChildStep (items : List SidebarItem) (p c : Nat) : Prop :=
  ∃ i ∈ items, i.id = c ∧ i.parent_id = some p

/-- `ReachesIn items a c k`: starting from id `a`, following `k` child
steps through `items` reaches id `c` (so for `k ≥ 1`, `c` is a strict
descendant of `a`). -/
inductive ReachesIn (items : List SidebarItem) : Nat → Nat → Nat → Prop where
  | refl (a : Nat) : ReachesIn items a a 0
  | head {a b c k : Nat} : IsChildStep items a b → ReachesIn items b c k →
      ReachesIn items a c (k + 1)

lemma mem_closure_of_mem {items : List SidebarItem} {x : Nat} :
    ∀ {n : Nat} {acc : List Nat}, x ∈ acc → x ∈ itemChildClosure items acc n := by
  intro n
  induction n with
  | zero => intro acc hx; exact hx
  | succ n ih =>
    intro acc hx
    show x ∈ itemChildClosure items (acc ++ closureStep items acc) n
    exact ih (List.mem_append_left _ hx)

lemma closure_complete {items : List SidebarItem} {a y k : Nat}
    (h : ReachesIn items a y k) :
    ∀ {n : Nat} {acc : List Nat}, a ∈ acc → k ≤ n →
      y ∈ itemChildClosure items acc n := by
  induction h with
  | refl a =>
    intro n acc ha _
    exact mem_closure_of_mem ha
  | head hstep hrest ih =>
    rename_i a b c k
    intro n acc ha hk
    cases n with
    | zero => omega
    | succ n =>
      show c ∈ itemChildClosure items (acc ++ closureStep items acc) n
      apply ih ?_ (by omega)
      obtain ⟨i, hi, hib, hip⟩ := hstep
      by_cases hb : b ∈ acc
      · exact List.mem_append_left _ hb
      · refine List.mem_append_right _ (List.mem_map.mpr ⟨i, List.mem_filter.mpr ⟨hi, ?_⟩, hib⟩)
        rw [hip, hib]
        simp [ha, hb]

lemma deleteDynTablesWhere_tabs (p : DynamicTable → Bool) (db : DB) :
    (deleteDynTablesWhere p db).dynamic_tables =
      db.dynamic_tables.filter (fun t => !(p t)) := rfl

lemma deleteDynTablesWhere_cols (p : DynamicTable → Bool) (db : DB) :
    (deleteDynTablesWhere p db).table_columns =
      db.table_columns.filter (fun c =>
        !(decide (c.table_id ∈ (db.dynamic_tables.filter p).map (·.id)))) := rfl

lemma deleteDynTablesWhere_rows (p : DynamicTable → Bool) (db : DB) :
    (deleteDynTablesWhere p db).table_data =
      db.table_data.filter (fun r =>
        !(decide (r.table_id ∈ (db.dynamic_tables.filter p).map (·.id)))) := rfl

lemma deleteItemsWhere_sidebar (p : SidebarItem → Bool) (db : DB) :
    (deleteItemsWhere p db).sidebar_items =
      db.sidebar_items.filter (fun i => !(decide (i.id ∈ cascadeIds p db))) := rfl

lemma deleteItemsWhere_tabs (p : SidebarItem → Bool) (db : DB) :
    (deleteItemsWhere p db).dynamic_tables =
      db.dynamic_tables.filter (fun t =>
        !(decide (t.sidebar_item_id ∈ cascadeIds p db))) := rfl

lemma deleteItemsWhere_cols (p : SidebarItem → Bool) (db : DB) :
    (deleteItemsWhere p db).table_columns =
      db.table_columns.filter (fun c =>
        !(decide (c.table_id ∈ (db.dynamic_tables.filter (fun t =>
          decide (t.sidebar_item_id ∈ cascadeIds p db))).map (·.id)))) := rfl

lemma deleteItemsWhere_rows (p : SidebarItem → Bool) (db : DB) :
    (deleteItemsWhere p db).table_data =
      db.table_data.filter (fun r =>
        !(decide (r.table_id ∈ (db.dynamic_tables.filter (fun t =>
          decide (t.sidebar_item_id ∈ cascadeIds p db))).map (·.id)))) := rfl

lemma tab_cols_rows_gone_of_removed (p : DynamicTable → Bool) (db : DB)
    (t0 : DynamicTable) (ht0 : t0 ∈ db.dynamic_tables) (hp : p t0 = true) :
    (∀ c ∈ (deleteDynTablesWhere p db).table_columns, c.table_id ≠ t0.id) ∧
    (∀ r ∈ (deleteDynTablesWhere p db).table_data, r.table_id ≠ t0.id) := by
  have hmem : t0.id ∈ (db.dynamic_tables.filter p).map (·.id) :=
    List.mem_map.mpr ⟨t0, List.mem_filter.mpr ⟨ht0, hp⟩, rfl⟩
  constructor
  · intro c hc hceq
    rw [deleteDynTablesWhere_cols] at hc
    have h2 := (List.mem_filter.mp hc).2
    rw [hceq] at h2
    simp [hmem] at h2
  · intro r hr hreq
    rw [deleteDynTablesWhere_rows] at hr
    have h2 := (List.mem_filter.mp hr).2
    rw [hreq] at h2
    simp [hmem] at h2

lemma deleteItemsWhere_removes (p : SidebarItem → Bool) (db : DB) (x : Nat)
    (hx : x ∈ cascadeIds p db) :
    (∀ i ∈ (deleteItemsWhere p db).sidebar_items, i.id ≠ x) ∧
    (∀ t ∈ (deleteItemsWhere p db).dynamic_tables, t.sidebar_item_id ≠ x) := by
  constructor
  · intro i hi hieq
    rw [deleteItemsWhere_sidebar] at hi
    have h2 := (List.mem_filter.mp hi).2
    rw [hieq] at h2
    simp [hx] at h2
  · intro t ht hteq
    rw [deleteItemsWhere_tabs] at ht
    have h2 := (List.mem_filter.mp ht).2
    rw [hteq] at h2
    simp [hx] at h2

lemma deleteItemsWhere_tab_gone (p : SidebarItem → Bool) (db : DB)
    (t0 : DynamicTable) (ht0 : t0 ∈ db.dynamic_tables)
    (hmem : t0.sidebar_item_id ∈ cascadeIds p db) :
    (∀ c ∈ (deleteItemsWhere p db).table_columns, c.table_id ≠ t0.id) ∧
    (∀ r ∈ (deleteItemsWhere p db).table_data, r.table_id ≠ t0.id) :=
  tab_cols_rows_gone_of_removed
    (fun t => decide (t.sidebar_item_id ∈ cascadeIds p db))
    { db with sidebar_items :=
        db.sidebar_items.filter (fun i => !(decide (i.id ∈ cascadeIds p db))) }
    t0 ht0 (by simpa using hmem)

/-- The store after the first step of a folder delete: the explicit
`DELETE FROM dynamic_tables WHERE sidebar_item_id IN (direct child table ids)`. -/
def folderDeleteStepA (fid : Nat) (db : DB) : DB :=
  deleteDynTablesWhere (fun t => decide (t.sidebar_item_id ∈
    (db.sidebar_items.filter (fun i =>
      i.parent_id == some fid && i.item_type == "table")).map (·.id))) db

/-- The store after the second step: `DELETE FROM sidebar_items WHERE
parent_id = fid`, with all cascades. -/
def folderDeleteStepB (fid : Nat) (db : DB) : DB :=
  deleteItemsWhere (fun i => i.parent_id == some fid) (folderDeleteStepA fid db)

/-- The store after the final step: `DELETE FROM sidebar_items WHERE id =
fid`, with all cascades — the state `deleteSidebarItem` leaves for a
folder. -/
def folderDeleteResult (fid : Nat) (db : DB) : DB :=
  deleteItemsWhere (fun i => i.id == fid) (folderDeleteStepB fid db)

lemma deleteSidebarItem_folder_eq (db : DB) (fid : Nat) (item : SidebarItem)
    (hfind : db.sidebar_items.find? (fun i => i.id == fid) = some item)
    (hty : item.item_type = "folder") :
    deleteSidebarItem fid db = .ok (folderDeleteResult fid db) := by
  simp only [deleteSidebarItem, hfind, deleteSidebarItemFound, hty]
  rfl

/-- C5: deleting a folder removes every strict descendant item (any item
reachable by `k ≥ 1` child steps, folders and tables at every depth),
every DynamicTable bound to such a descendant, and those tables'
ColumnDefinitions and RowRecords, as well as the folder row itself: none
of them remain afterwards.  The bound `k ≤ |sidebar_items|` holds for
every forest-shaped store (a descendant chain visits distinct rows). -/
theorem c5_folder_delete_cascades (db : DB) (fid : Nat) (item : SidebarItem)
    (hfind : db.sidebar_items.find? (fun i => i.id == fid) = some item)
    (hty : item.item_type = "folder") (j k : Nat)
    (hreach : ReachesIn db.sidebar_items fid j k) (hk1 : 1 ≤ k)
    (hkle : k ≤ db.sidebar_items.length) :
    ∃ db', deleteSidebarItem fid db = .ok db' ∧
      (∀ i ∈ db'.sidebar_items, i.id ≠ j) ∧
      (∀ i ∈ db'.sidebar_items, i.id ≠ fid) ∧
      (∀ t ∈ db'.dynamic_tables, t.sidebar_item_id ≠ j) ∧
      (∀ t0 ∈ db.dynamic_tables, t0.sidebar_item_id = j →
        (∀ c ∈ db'.table_columns, c.table_id ≠ t0.id) ∧
        (∀ r ∈ db'.table_data, r.table_id ≠ t0.id)) := by
  have hjB : j ∈ itemChildClosure db.sidebar_items
      ((db.sidebar_items.filter (fun i => i.parent_id == some fid)).map
        (fun x => x.id)) db.sidebar_items.length := by
    cases hreach with
    | refl => omega
    | head hstep hrest =>
      obtain ⟨i, hi, hib, hip⟩ := hstep
      exact closure_complete hrest
        (List.mem_map.mpr ⟨i, List.mem_filter.mpr ⟨hi, by simp [hip]⟩, hib⟩)
        (by omega)
  have hjB' : j ∈ cascadeIds (fun i => i.parent_id == some fid)
      (folderDeleteStepA fid db) := hjB
  refine ⟨folderDeleteResult fid db,
    deleteSidebarItem_folder_eq db fid item hfind hty, ?_, ?_, ?_, ?_⟩
  · intro i hi
    simp only [folderDeleteResult] at hi
    rw [deleteItemsWhere_sidebar] at hi
    exact (deleteItemsWhere_removes _ _ j hjB').1 i (List.mem_of_mem_filter hi)
  · intro i hi
    simp only [folderDeleteResult] at hi
    rw [deleteItemsWhere_sidebar] at hi
    by_cases hcase : fid ∈ cascadeIds (fun i => i.parent_id == some fid)
        (folderDeleteStepA fid db)
    · exact (deleteItemsWhere_removes _ _ fid hcase).1 i (List.mem_of_mem_filter hi)
    · have hitem_mem : item ∈ db.sidebar_items := List.mem_of_find?_eq_some hfind
      have hitem_id : item.id = fid := by simpa using List.find?_some hfind
      have hmemB : item ∈ (folderDeleteStepB fid db).sidebar_items := by
        show item ∈ (deleteItemsWhere (fun i => i.parent_id == some fid)
          (folderDeleteStepA fid db)).sidebar_items
        rw [deleteItemsWhere_sidebar]
        refine List.mem_filter.mpr ⟨hitem_mem, ?_⟩
        rw [hitem_id]
        simp [hcase]
      have hfidC : fid ∈ cascadeIds (fun i => i.id == fid)
          (folderDeleteStepB fid db) := by
        show fid ∈ itemChildClosure (folderDeleteStepB fid db).sidebar_items
          (((folderDeleteStepB fid db).sidebar_items.filter
            (fun i => i.id == fid)).map (fun x => x.id))
          (folderDeleteStepB fid db).sidebar_items.length
        exact mem_closure_of_mem (List.mem_map.mpr
          ⟨item, List.mem_filter.mpr ⟨hmemB, by simp [hitem_id]⟩, hitem_id⟩)
      intro hieq
      have h2 := (List.mem_filter.mp hi).2
      rw [hieq] at h2
      simp [hfidC] at h2
  · intro t ht
    simp only [folderDeleteResult] at ht
    rw [deleteItemsWhere_tabs] at ht
    exact (deleteItemsWhere_removes _ _ j hjB').2 t (List.mem_of_mem_filter ht)
  · intro t0 ht0 ht0j
    have hsplit : ∀ a : Nat, (∀ c ∈ (folderDeleteStepB fid db).table_columns,
          c.table_id ≠ a) ∧ (∀ r ∈ (folderDeleteStepB fid db).table_data,
          r.table_id ≠ a) →
        (∀ c ∈ (folderDeleteResult fid db).table_columns, c.table_id ≠ a) ∧
        (∀ r ∈ (folderDeleteResult fid db).table_data, r.table_id ≠ a) := by
      intro a h
      constructor
      · intro c hc
        simp only [folderDeleteResult] at hc
        rw [deleteItemsWhere_cols] at hc
        exact h.1 c (List.mem_of_mem_filter hc)
      · intro r hr
        simp only [folderDeleteResult] at hr
        rw [deleteItemsWhere_rows] at hr
        exact h.2 r (List.mem_of_mem_filter hr)
    apply hsplit
    rcases Bool.eq_false_or_eq_true (decide (t0.sidebar_item_id ∈
      (db.sidebar_items.filter (fun i =>
        i.parent_id == some fid && i.item_type == "table")).map (·.id))) with hA | hA
    · -- t0 is removed by the explicit direct-child delete, along with its
      -- columns and rows; later steps only remove more.
      have h := tab_cols_rows_gone_of_removed (fun t => decide (t.sidebar_item_id ∈
        (db.sidebar_items.filter (fun i =>
          i.parent_id == some fid && i.item_type == "table")).map (·.id)))
        db t0 ht0 hA
      constructor
      · intro c hc
        simp only [folderDeleteStepB] at hc
        rw [deleteItemsWhere_cols] at hc
        exact h.1 c (List.mem_of_mem_filter hc)
      · intro r hr
        simp only [folderDeleteStepB] at hr
        rw [deleteItemsWhere_rows] at hr
        exact h.2 r (List.mem_of_mem_filter hr)
    · -- t0 survives the explicit direct-child delete; it is removed by the
      -- cascade of the children delete, since its sidebar item is a descendant.
      have ht0A : t0 ∈ (folderDeleteStepA fid db).dynamic_tables := by
        show t0 ∈ (deleteDynTablesWhere _ db).dynamic_tables
        rw [deleteDynTablesWhere_tabs]
        exact List.mem_filter.mpr ⟨ht0, by simp [hA]⟩
      have hmemB : t0.sidebar_item_id ∈ cascadeIds
          (fun i => i.parent_id == some fid) (folderDeleteStepA fid db) := by
        rw [ht0j]
        exact hjB'
      have h := deleteItemsWhere_tab_gone (fun i => i.parent_id == some fid)
        (folderDeleteStepA fid db) t0 ht0A hmemB
      constructor
      · intro c hc
        exact h.1 c hc
      · intro r hr
        exact h.2 r hr

/-- The store of the C5 witness: a root folder (1) with a direct child
table (2), a child folder (3), and a grandchild table (4) under the
child folder; each table has a DynamicTable, a column, and a row. -/
def dbC5 : DB :=
  ⟨[⟨1, "F", none, "folder", some "folder", 0⟩,
    ⟨2, "T", some 1, "table", some "table", 0⟩,
    ⟨3, "G", some 1, "folder", some "folder", 1⟩,
    ⟨4, "U", some 3, "table", some "table", 0⟩],
   [⟨10, 2, "t", "T", none⟩, ⟨11, 4, "u", "U", none⟩],
   [⟨100, 10, "c", "C", "text", false, none, 0, 150⟩,
    ⟨101, 11, "d", "D", "text", false, none, 0, 150⟩],
   [⟨7, 10, [("c", JsValue.str "x")]⟩, ⟨8, 11, [("d", JsValue.str "y")]⟩],
   5, 12, 9⟩

/-- C5 witness: deleting the root folder of `dbC5` removes the grandchild
table item 4 (reached in two child steps), the folder itself, the
DynamicTable bound to item 4, and that table's column and row. -/
theorem c5_folder_delete_cascades_witness :
    ∃ db', deleteSidebarItem 1 dbC5 = .ok db' ∧
      (∀ i ∈ db'.sidebar_items, i.id ≠ 4) ∧
      (∀ i ∈ db'.sidebar_items, i.id ≠ 1) ∧
      (∀ t ∈ db'.dynamic_tables, t.sidebar_item_id ≠ 4) ∧
      (∀ t0 ∈ dbC5.dynamic_tables, t0.sidebar_item_id = 4 →
        (∀ c ∈ db'.table_columns, c.table_id ≠ t0.id) ∧
        (∀ r ∈ db'.table_data, r.table_id ≠ t0.id)) :=
  c5_folder_delete_cascades dbC5 1 ⟨1, "F", none, "folder", some "folder", 0⟩
    (by rfl) rfl 4 2
    (ReachesIn.head
      ⟨⟨3, "G", some 1, "folder", some "folder", 1⟩, by decide, rfl, rfl⟩
      (ReachesIn.head
        ⟨⟨4, "U", some 3, "table", some "table", 0⟩, by decide, rfl, rfl⟩
        (ReachesIn.refl 4)))
    (by decide) (by decide)
